import Mathlib

/-!
Shallow embedding of the core import pipeline of `ytm-playlist-importer`
(the current variant of the tool, `src/unnamed/part_000` lines 1-340):
`createRedisKey`, `getYoutubeTrackData`, `videoIsAlreadyInPlaylist`,
`addTrack`, `playlistAlreadyExists` and `addPlaylist`.

Modelling conventions:
* All remote collaborators (YouTube search, playlist listing/creation,
  playlist-item listing/insertion) are oracles packaged in an `Env` record;
  the sequential `async/await` control flow of the source becomes plain
  sequential evaluation, and each outgoing remote request is recorded as an
  `Event` so that temporal claims ("check happens before insert", "no second
  search call") are statements about the produced event list.
* The Redis store is an association list from string keys to entries.  The
  source stores JSON strings; since every value the program ever writes is
  `JSON.stringify` of the fetched array (a non-empty string, hence truthy
  for the `if (cacheData)` test, and `JSON.parse` inverts it), the string
  layer is collapsed and the store holds the parsed value directly.  A
  parsed value that is not an array (`null`, object, ...) is `JsonVal.nonArr`;
  this is what the lodash `isArray` guard at line 235 rejects.
* A thrown JS exception becomes the `Except.error` branch; in particular the
  `TypeError` raised by the unguarded `youtubeTrackData[0].id` access on an
  empty array (line 176) is `JsError.typeError`.
* Redis `SET` clears any TTL of the key (expiry `none`), and `EXPIRE k n`
  arms it to `n` seconds, exactly as the two calls at lines 238-239 do.
-/

namespace YtmImporter

/-- A CSV row's identity pair: the raw `Artist Name(s)` and `Track Name`
fields of `TrackData`; all other columns are carried opaquely and never read
by the core, so they are omitted from the embedding. -/
structure TrackData where
  artistNames : String
  trackName : String
deriving DecidableEq, Repr

/-- The `id` object of a YouTube search result (`resourceId` in `addTrack`). -/
structure ResourceId where
  videoId : String
deriving DecidableEq, Repr

/-- One YouTube search result: its `id` and its `snippet.title`. -/
structure SearchResult where
  id : ResourceId
  title : String
deriving DecidableEq, Repr

/-- A parsed JSON value as far as the pipeline inspects it: either an array
of search results, or anything that is not an array (`null`, `undefined`
response items, an object, ...), which the `isArray` guard rejects. -/
inductive JsonVal where
  | arr (items : List SearchResult)
  | nonArr
deriving DecidableEq, Repr

/-- The exceptions the per-track pipeline can raise: the explicit
`new Error` of line 236 (carrying the query string in its message), and the
implicit `TypeError` of the unguarded `youtubeTrackData[0].id` access. -/
inductive JsError where
  | noSearchResults (query : String)
  | typeError
deriving DecidableEq, Repr

/-- A live Redis entry: its (parsed) value and its expiry state —
`none` when the key has no TTL, `some n` when `EXPIRE key n` armed it. -/
structure CacheEntry where
  value : JsonVal
  expiry : Option Nat
deriving DecidableEq, Repr

/-- The Redis store: live entries only (Redis removes expired keys, so a
lookup hit is exactly "a live entry exists for this key"). -/
abbrev Cache := List (String × CacheEntry)

/-- `client.get key`: the entry stored under `key`, if any. -/
def cacheGet : Cache → String → Option CacheEntry
  | [], _ => none
  | (k, e) :: rest, key => if k = key then some e else cacheGet rest key

/-- `client.set key value`: overwrite (or append) the entry, clearing TTL. -/
def cacheSet : Cache → String → JsonVal → Cache
  | [], key, v => [(key, ⟨v, none⟩)]
  | (k, e) :: rest, key, v =>
      if k = key then (k, ⟨v, none⟩) :: rest else (k, e) :: cacheSet rest key v

/-- `client.expire key n`: arm the TTL of an existing key to `n` seconds. -/
def cacheExpire : Cache → String → Nat → Cache
  | [], _, _ => []
  | (k, e) :: rest, key, n =>
      if k = key then (k, ⟨e.value, some n⟩) :: rest
      else (k, e) :: cacheExpire rest key n

instance {ε α : Type} [DecidableEq ε] [DecidableEq α] : DecidableEq (Except ε α) :=
  fun a b =>
    match a, b with
    | Except.ok x, Except.ok y =>
        if h : x = y then Decidable.isTrue (by simp [h])
        else Decidable.isFalse (by simp [h])
    | Except.ok _, Except.error _ => Decidable.isFalse (by simp)
    | Except.error _, Except.ok _ => Decidable.isFalse (by simp)
    | Except.error d, Except.error e =>
        if h : d = e then Decidable.isTrue (by simp [h])
        else Decidable.isFalse (by simp [h])

/-- One outgoing remote request of the pipeline.  `playlistId` arguments are
`Option String` because `addPlaylist` passes `resolvedId`, which stays `null`
when no playlist could be located or created. -/
inductive Event where
  | searchCall (query : String)
  | memberCheck (playlistId : Option String) (videoId : String)
  | insertCall (playlistId : Option String) (videoId : String)
  | createCall (title : String)
deriving DecidableEq, Repr

/-- One entry of the `playlists.list` response: its `id` and `snippet.title`. -/
structure Playlist where
  id : String
  title : String
deriving DecidableEq, Repr

/-- The external world of one run: the remote oracles, the `playlists.list`
response page, the outcome of `playlists.insert`, and the CSV data
(`getCsvFile` result: rows, some possibly falsy, plus the derived name). -/
structure Env where
  /-- `service.search.list(q).data.items` for a given query. -/
  searchItems : String → JsonVal
  /-- `service.playlistItems.list` items for a (playlistId, videoId) filter. -/
  memberItems : Option String → String → List String
  /-- whether `service.playlistItems.insert` rejects for this pair. -/
  insertFails : Option String → String → Bool
  /-- the `playlists.list` response items (first page, `maxResults: 20`). -/
  playlists : List Playlist
  /-- whether `service.playlists.insert` rejects. -/
  createFails : Bool
  /-- the id of the playlist `playlists.insert` creates when it succeeds. -/
  createdId : String
  /-- `results.data`: the parsed CSV rows, falsy rows as `none`. -/
  tracks : List (Option TrackData)
  /-- the display name derived from the CSV file name. -/
  filename : String

/-- Source line 131: `youtube-data-for-${data['Artist Name(s)']}-${data['Track Name']}`,
raw field values, no normalisation or escaping. -/
def createRedisKey (data : TrackData) : String :=
  "youtube-data-for-" ++ data.artistNames ++ "-" ++ data.trackName

/-- Source line 171: the free-text query `${data['Artist Name(s)']} ${data['Track Name']}`. -/
def trackQuery (data : TrackData) : String :=
  data.artistNames ++ " " ++ data.trackName

/-- The value `youtubeTrackData` holds after lines 221-234: the cached value
when the `client.get` result is truthy, otherwise the fresh search items. -/
def resolvedVal (env : Env) (cache : Cache) (data : TrackData) (query : String) : JsonVal :=
  match cacheGet cache (createRedisKey data) with
  | some e => e.value
  | none => env.searchItems query

/-- `getYoutubeTrackData` (lines 214-241): cache-or-search, `isArray`
validation (throwing `No items were returned for query: ...` when the value
is not an array), then unconditional `set` + `expire 86400` write-back.
Returns the result (or thrown error), the store afterwards, and the remote
search requests issued. -/
def getYoutubeTrackData (env : Env) (cache : Cache) (data : TrackData) (query : String) :
    Except JsError (List SearchResult) × Cache × List Event :=
  let evs : List Event :=
    match cacheGet cache (createRedisKey data) with
    | some _ => []
    | none => [Event.searchCall query]
  match resolvedVal env cache data query with
  | JsonVal.nonArr => (Except.error (JsError.noSearchResults query), cache, evs)
  | JsonVal.arr items =>
      (Except.ok items,
        cacheExpire (cacheSet cache (createRedisKey data) (JsonVal.arr items))
          (createRedisKey data) 86400,
        evs)

/-- The fixed parameters of the `playlistItems.list` membership query
(lines 151-157): first page of up to 50 items filtered by videoId. -/
def playlistItemsListMaxResults : Nat := 50

/-- `videoIsAlreadyInPlaylist` (lines 142-160): `!!items.length` of the
filtered `playlistItems.list` response. -/
def videoIsAlreadyInPlaylist (env : Env) (playlistId : Option String) (videoId : String) : Bool :=
  !(env.memberItems playlistId videoId).isEmpty

/-- `addTrack` (lines 169-203): resolve the track, read
`youtubeTrackData[0].id` (a `TypeError` when the sequence is empty), check
membership, early-return on a duplicate, otherwise attempt the insert — the
`try/catch` at lines 188-202 downgrades an insert failure to a logged
message, so execution continues identically either way. -/
def addTrack (env : Env) (cache : Cache) (data : TrackData) (playlistId : Option String) :
    Except JsError Unit × Cache × List Event :=
  match getYoutubeTrackData env cache data (trackQuery data) with
  | (Except.error e, c, evs) => (Except.error e, c, evs)
  | (Except.ok items, c, evs) =>
    match items with
    | [] => (Except.error JsError.typeError, c, evs)
    | r :: _ =>
      let vid := r.id.videoId
      if videoIsAlreadyInPlaylist env playlistId vid then
        (Except.ok (), c, evs ++ [Event.memberCheck playlistId vid])
      else
        if env.insertFails playlistId vid then
          (Except.ok (), c,
            evs ++ [Event.memberCheck playlistId vid, Event.insertCall playlistId vid])
        else
          (Except.ok (), c,
            evs ++ [Event.memberCheck playlistId vid, Event.insertCall playlistId vid])

/-- The result object of `playlistAlreadyExists`. -/
structure LocateResult where
  exists' : Bool
  id : Option String
deriving DecidableEq, Repr

/-- The fixed parameters of the `playlists.list` request (lines 252-257):
a single page of up to 20 of the account's own playlists. -/
structure PlaylistsListRequest where
  parts : List String
  maxResults : Nat
  mine : Bool
deriving DecidableEq, Repr

/-- The request `playlistAlreadyExists` issues, as written at lines 252-257. -/
def playlistsListRequest : PlaylistsListRequest :=
  { parts := ["snippet"], maxResults := 20, mine := true }

/-- `playlistAlreadyExists` (lines 250-265), applied to the response items:
linear scan with early return on the first exact title match. -/
def playlistAlreadyExists : List Playlist → String → LocateResult
  | [], _ => ⟨false, none⟩
  | pl :: rest, title =>
      if pl.title = title then ⟨true, some pl.id⟩ else playlistAlreadyExists rest title

/-- The `for (const track of results.data)` loop of lines 302-306: falsy rows
are skipped by the `if (track)` guard; each row is awaited in order, and a
rejection of `addTrack` (an uncaught throw) rejects the whole loop, so the
remaining rows are not attempted. -/
def addTrackLoop (env : Env) (cache : Cache) (tracks : List (Option TrackData))
    (pid : Option String) : Except JsError Unit × Cache × List Event :=
  match tracks with
  | [] => (Except.ok (), cache, [])
  | none :: rest => addTrackLoop env cache rest pid
  | some t :: rest =>
    match addTrack env cache t pid with
    | (Except.error e, c, evs) => (Except.error e, c, evs)
    | (Except.ok _, c, evs) =>
      match addTrackLoop env c rest pid with
      | (o, c2, evs2) => (o, c2, evs ++ evs2)

/-- The outcome of one pass of `addPlaylist`: the outcome of the track loop
(`error` when an uncaught per-track throw rejected the run), the store
afterwards, the remote requests issued, and whether control reached the
self-invocation `addPlaylist(auth)` at line 308 (it does exactly when the
loop completed without rejecting). -/
structure PassResult where
  outcome : Except JsError Unit
  cache : Cache
  events : List Event
  reinvoke : Bool
deriving DecidableEq, Repr

/-- `addPlaylist` (lines 272-309), one pass: locate the playlist by the CSV
display name; when absent, attempt creation (`resolvedId` keeps the `null`
`existingId` if creation throws, since the assignment sits inside the
`try`); then run the track loop with `resolvedId`; finally line 308
re-invokes the whole import. -/
def addPlaylist (env : Env) (cache : Cache) : PassResult :=
  let loc := playlistAlreadyExists env.playlists env.filename
  let resolvedId : Option String :=
    if loc.exists' then loc.id
    else if env.createFails then loc.id
    else some env.createdId
  let createEvs : List Event :=
    if loc.exists' then [] else [Event.createCall env.filename]
  match addTrackLoop env cache env.tracks resolvedId with
  | (o, c, evs) =>
    { outcome := o, cache := c, events := createEvs ++ evs,
      reinvoke := match o with | Except.ok _ => true | Except.error _ => false }

/-- Concrete world for claim C1: playlist "My List" already exists; the
first CSV row ("A", "X") has no search result (`data.items` absent), the
second ("B", "Y") resolves fine; the store starts empty. -/
def envC1 : Env where
  searchItems := fun q => if q = "B Y" then JsonVal.arr [⟨⟨"v2"⟩, "TB"⟩] else JsonVal.nonArr
  memberItems := fun _ _ => []
  insertFails := fun _ _ => false
  playlists := [⟨"id1", "My List"⟩]
  createFails := false
  createdId := "newid"
  tracks := [some ⟨"A", "X"⟩, some ⟨"B", "Y"⟩]
  filename := "My List"

/-- Concrete world for claim C2's witness: the video resolved for any query
is already a member of every playlist. -/
def envC2 : Env where
  searchItems := fun _ => JsonVal.arr [⟨⟨"v1"⟩, "T"⟩]
  memberItems := fun _ _ => ["existingItem"]
  insertFails := fun _ _ => false
  playlists := []
  createFails := false
  createdId := "p"
  tracks := []
  filename := ""

/-- Concrete world for claim C3: one row, resolving and inserting cleanly
into the pre-existing playlist, so the pass completes. -/
def envC3 : Env where
  searchItems := fun _ => JsonVal.arr [⟨⟨"v1"⟩, "T"⟩]
  memberItems := fun _ _ => []
  insertFails := fun _ _ => false
  playlists := [⟨"id1", "My List"⟩]
  createFails := false
  createdId := "newid"
  tracks := [some ⟨"A", "X"⟩]
  filename := "My List"

/-- Concrete world for claim C4's witness: searching any query yields one
candidate. -/
def envC4 : Env where
  searchItems := fun _ => JsonVal.arr [⟨⟨"v1"⟩, "T"⟩]
  memberItems := fun _ _ => []
  insertFails := fun _ _ => false
  playlists := []
  createFails := false
  createdId := "p"
  tracks := []
  filename := ""

/-- Concrete world for claim C5's witness: the remote search never answers,
so only the cache can supply data. -/
def envC5 : Env where
  searchItems := fun _ => JsonVal.nonArr
  memberItems := fun _ _ => []
  insertFails := fun _ _ => false
  playlists := []
  createFails := false
  createdId := "p"
  tracks := []
  filename := ""

/-- Concrete world for claim C6's counterexample: the remote search returns
an empty items array (zero results) for every query. -/
def envC6 : Env where
  searchItems := fun _ => JsonVal.arr []
  memberItems := fun _ _ => []
  insertFails := fun _ _ => false
  playlists := []
  createFails := false
  createdId := "p"
  tracks := []
  filename := ""

/-- Concrete world for claim C6's witness: the search response carries no
items array at all (`data.items` null/absent). -/
def envC6b : Env where
  searchItems := fun _ => JsonVal.nonArr
  memberItems := fun _ _ => []
  insertFails := fun _ _ => false
  playlists := []
  createFails := false
  createdId := "p"
  tracks := []
  filename := ""

/-- Concrete world for claim C9's witness: playlist "My List" exists with
id "id1" and the single row resolves cleanly. -/
def envC9 : Env where
  searchItems := fun _ => JsonVal.arr [⟨⟨"v1"⟩, "T"⟩]
  memberItems := fun _ _ => []
  insertFails := fun _ _ => false
  playlists := [⟨"id1", "My List"⟩]
  createFails := false
  createdId := "newid"
  tracks := [some ⟨"A", "X"⟩]
  filename := "My List"

/-- Concrete world for claim C10: the remote search is unreachable, so only
the cached value can be used. -/
def envC10 : Env where
  searchItems := fun _ => JsonVal.nonArr
  memberItems := fun _ _ => ["existingItem"]
  insertFails := fun _ _ => false
  playlists := []
  createFails := false
  createdId := "p"
  tracks := []
  filename := ""

/-- A live cache entry for ("A", "X") holding the JSON empty array (the
parse of a cached "[]" string), 100 seconds of TTL remaining. -/
def cacheC10 : Cache := [("youtube-data-for-A-X", ⟨JsonVal.arr [], some 100⟩)]

/-- After `set key v` followed by `expire key n`, the store holds `v` under
`key` with its TTL armed to `n`. -/
theorem cacheGet_expire_set (c : Cache) (k : String) (v : JsonVal) (n : Nat) :
    cacheGet (cacheExpire (cacheSet c k v) k n) k = some ⟨v, some n⟩ := by
  induction c with
  | nil => simp [cacheSet, cacheExpire, cacheGet]
  | cons hd rest ih =>
    obtain ⟨k2, e⟩ := hd
    by_cases h : k2 = k
    · simp [cacheSet, cacheExpire, cacheGet, h]
    · simp [cacheSet, cacheExpire, cacheGet, h, ih]

/-- The resolver's only remote request is the single search for its query. -/
theorem getYoutubeTrackData_events (env : Env) (cache : Cache) (d : TrackData) (q : String)
    (e : Event) (he : e ∈ (getYoutubeTrackData env cache d q).2.2) :
    e = Event.searchCall q := by
  simp only [getYoutubeTrackData] at he
  rcases h1 : cacheGet cache (createRedisKey d) with _ | ce <;>
    rcases h2 : resolvedVal env cache d q with items | _ <;>
    simp_all

/-- The only exception the resolver itself raises is `NoSearchResults`,
carrying the query string. -/
theorem getYoutubeTrackData_error (env : Env) (cache : Cache) (d : TrackData) (q : String)
    (e : JsError) (he : (getYoutubeTrackData env cache d q).1 = Except.error e) :
    e = JsError.noSearchResults q := by
  simp only [getYoutubeTrackData] at he
  rcases h2 : resolvedVal env cache d q with items | _ <;> simp_all

/-- Every remote request `addTrack` makes is either a search, or a
membership check / insert against exactly the playlist id it was given. -/
theorem addTrack_events (env : Env) (cache : Cache) (d : TrackData) (pid : Option String)
    (e : Event) (he : e ∈ (addTrack env cache d pid).2.2) :
    (∃ q, e = Event.searchCall q) ∨ (∃ v, e = Event.memberCheck pid v) ∨
      (∃ v, e = Event.insertCall pid v) := by
  unfold addTrack at he
  rcases h : getYoutubeTrackData env cache d (trackQuery d) with ⟨res, c, evs⟩
  rw [h] at he
  have hevs : ∀ x ∈ evs, x = Event.searchCall (trackQuery d) := by
    intro x hx
    exact getYoutubeTrackData_events env cache d (trackQuery d) x (by rw [h]; exact hx)
  rcases res with e' | items
  · exact Or.inl ⟨trackQuery d, hevs e he⟩
  · rcases items with _ | ⟨r, rest⟩
    · exact Or.inl ⟨trackQuery d, hevs e he⟩
    · dsimp only at he
      split at he
      · rcases List.mem_append.mp he with h1 | h1
        · exact Or.inl ⟨trackQuery d, hevs e h1⟩
        · simp only [List.mem_singleton] at h1
          exact Or.inr (Or.inl ⟨r.id.videoId, h1⟩)
      · split at he <;>
        · rcases List.mem_append.mp he with h1 | h1
          · exact Or.inl ⟨trackQuery d, hevs e h1⟩
          · simp only [List.mem_cons, List.not_mem_nil, or_false] at h1
            rcases h1 with h1 | h1
            · exact Or.inr (Or.inl ⟨r.id.videoId, h1⟩)
            · exact Or.inr (Or.inr ⟨r.id.videoId, h1⟩)

/-- Every remote request the track loop makes is a search, or a membership
check / insert against exactly the playlist id the loop was given. -/
theorem addTrackLoop_events (env : Env) (tracks : List (Option TrackData)) :
    ∀ (cache : Cache) (pid : Option String) (e : Event),
      e ∈ (addTrackLoop env cache tracks pid).2.2 →
      (∃ q, e = Event.searchCall q) ∨ (∃ v, e = Event.memberCheck pid v) ∨
        (∃ v, e = Event.insertCall pid v) := by
  induction tracks with
  | nil => intro cache pid e he; simp [addTrackLoop] at he
  | cons hd rest ih =>
    intro cache pid e he
    rcases hd with _ | t
    · exact ih cache pid e (by simpa [addTrackLoop] using he)
    · simp only [addTrackLoop] at he
      rcases h : addTrack env cache t pid with ⟨res, c, evs⟩
      rw [h] at he
      rcases res with e' | u
      · exact addTrack_events env cache t pid e (by rw [h]; exact he)
      · dsimp only at he
        rcases List.mem_append.mp he with h1 | h1
        · exact addTrack_events env cache t pid e (by rw [h]; exact h1)
        · exact ih c pid e h1

/-- Whenever the resolver returns normally, the store afterwards holds the
returned sequence under the track's key with its TTL armed to 86400 s. -/
theorem getYoutubeTrackData_ok_cache (env : Env) (cache : Cache) (d : TrackData) (q : String)
    (rs : List SearchResult) (c1 : Cache) (evs : List Event)
    (h : getYoutubeTrackData env cache d q = (Except.ok rs, c1, evs)) :
    cacheGet c1 (createRedisKey d) = some ⟨JsonVal.arr rs, some 86400⟩ := by
  simp only [getYoutubeTrackData] at h
  rcases h2 : resolvedVal env cache d q with items | _
  · rw [h2] at h
    dsimp only at h
    injection h with h3 h45
    injection h45 with h4 h5
    injection h3 with h3
    subst h3
    subst h4
    exact cacheGet_expire_set cache (createRedisKey d) (JsonVal.arr items) 86400
  · rw [h2] at h
    dsimp only at h
    injection h with h3 h45
    simp at h3

/-- Claim C4: once a resolve call has returned a candidate sequence, a
second resolve of the same track against the resulting store is a cache
hit: it issues no remote search request (its event list is empty) and
returns the same sequence — hence the same top candidate. -/
theorem c4_cache_hit_no_search (env : Env) (cache : Cache) (d : TrackData) (q : String)
    (rs : List SearchResult) (c1 : Cache) (evs1 : List Event)
    (h : getYoutubeTrackData env cache d q = (Except.ok rs, c1, evs1)) :
    ∃ c2, getYoutubeTrackData env c1 d q = (Except.ok rs, c2, []) := by
  have hc1 : cacheGet c1 (createRedisKey d) = some ⟨JsonVal.arr rs, some 86400⟩ :=
    getYoutubeTrackData_ok_cache env cache d q rs c1 evs1 h
  refine ⟨cacheExpire (cacheSet c1 (createRedisKey d) (JsonVal.arr rs))
    (createRedisKey d) 86400, ?_⟩
  simp [getYoutubeTrackData, resolvedVal, hc1]

/-- Witness for C4: a fresh resolve of ("A", "X") populates the store, and
the immediate second resolve returns the same sequence with no search. -/
theorem c4_witness :
    ∃ c2, getYoutubeTrackData envC4
        [("youtube-data-for-A-X", ⟨JsonVal.arr [⟨⟨"v1"⟩, "T"⟩], some 86400⟩)]
        ⟨"A", "X"⟩ "A X"
      = (Except.ok [⟨⟨"v1"⟩, "T"⟩], c2, []) :=
  c4_cache_hit_no_search envC4 [] ⟨"A", "X"⟩ "A X" [⟨⟨"v1"⟩, "T"⟩]
    [("youtube-data-for-A-X", ⟨JsonVal.arr [⟨⟨"v1"⟩, "T"⟩], some 86400⟩)]
    [Event.searchCall "A X"] (by decide)

/-- Claim C5: every resolve call that returns writes the candidate sequence
back under the same key and sets that key's expiry to 86400 seconds — also
on a cache hit, so a hit re-arms the TTL to the full window. -/
theorem c5_ttl_rearm (env : Env) (cache : Cache) (d : TrackData) (q : String)
    (rs : List SearchResult) (c1 : Cache) (evs : List Event)
    (h : getYoutubeTrackData env cache d q = (Except.ok rs, c1, evs)) :
    cacheGet c1 (createRedisKey d) = some ⟨JsonVal.arr rs, some 86400⟩ :=
  getYoutubeTrackData_ok_cache env cache d q rs c1 evs h

/-- Witness for C5: resolving against a live entry with only 5 seconds of
TTL left (the search backend being unreachable, the data can only have come
from that hit) leaves the entry re-armed to the full 86400 seconds. -/
theorem c5_witness :
    cacheGet [("youtube-data-for-A-X", ⟨JsonVal.arr [⟨⟨"v1"⟩, "T"⟩], some 86400⟩)]
      (createRedisKey ⟨"A", "X"⟩)
      = some ⟨JsonVal.arr [⟨⟨"v1"⟩, "T"⟩], some 86400⟩ :=
  c5_ttl_rearm envC5 [("youtube-data-for-A-X", ⟨JsonVal.arr [⟨⟨"v1"⟩, "T"⟩], some 5⟩)]
    ⟨"A", "X"⟩ "A X" [⟨⟨"v1"⟩, "T"⟩]
    [("youtube-data-for-A-X", ⟨JsonVal.arr [⟨⟨"v1"⟩, "T"⟩], some 86400⟩)] [] (by decide)

/-- Counterexample to C6 as stated: a track whose resolution yields the
empty candidate sequence (a remote search with zero results) does NOT make
the resolver fail with `NoSearchResults` — the empty array passes the
`isArray` validation and is returned (and even cached) as a success. -/
theorem c6_counterexample :
    getYoutubeTrackData envC6 [] ⟨"A", "X"⟩ "A X"
      = (Except.ok [], [("youtube-data-for-A-X", ⟨JsonVal.arr [], some 86400⟩)],
          [Event.searchCall "A X"]) := by decide

/-- Claim C6 as amended: the resolver raises `NoSearchResults` — carrying
the original query string — exactly when the resulting value is not an
array (null/absent); an empty array is not such a failure: it passes the
validation and is returned as a successful empty sequence. -/
theorem c6_amended_nonarray_fails (env : Env) (cache : Cache) (d : TrackData) (q : String) :
    ((getYoutubeTrackData env cache d q).1 = Except.error (JsError.noSearchResults q)
        ↔ resolvedVal env cache d q = JsonVal.nonArr)
    ∧ (resolvedVal env cache d q = JsonVal.arr [] →
        (getYoutubeTrackData env cache d q).1 = Except.ok []) := by
  constructor
  · constructor
    · intro h
      rcases h2 : resolvedVal env cache d q with items | _
      · simp [getYoutubeTrackData, h2] at h
      · rfl
    · intro h2
      simp [getYoutubeTrackData, h2]
  · intro h2
    simp [getYoutubeTrackData, h2]

/-- Witness for C6 (amended): with `data.items` absent, resolving ("A", "X")
raises `NoSearchResults` carrying the query "A X". -/
theorem c6_witness :
    (getYoutubeTrackData envC6b [] ⟨"A", "X"⟩ "A X").1
      = Except.error (JsError.noSearchResults "A X") :=
  ((c6_amended_nonarray_fails envC6b [] ⟨"A", "X"⟩ "A X").1).mpr (by decide)

/-- Claim C7: the cache key of a track record is exactly
"youtube-data-for-" followed by the raw artist field, a hyphen, and the raw
track field; the raw values are spliced in unescaped, so distinct identity
pairs can collide. -/
theorem c7_cache_key_format :
    (∀ a t : String, createRedisKey ⟨a, t⟩ = "youtube-data-for-" ++ a ++ "-" ++ t)
    ∧ createRedisKey ⟨"x-y", "z"⟩ = createRedisKey ⟨"x", "y-z"⟩ := by
  refine ⟨fun a t => rfl, ?_⟩
  decide

/-- Counterexample to C1 as stated: in `envC1`, record 1 of 2 fails
resolution with `NoSearchResults` — the error is NOT caught at the
orchestrator boundary: the whole pass rejects with it, the only remote
request of the run is record 1's search, so record 2 ("B", "Y") is never
attempted, and line 308 is never reached. -/
theorem c1_counterexample :
    addPlaylist envC1 []
      = { outcome := Except.error (JsError.noSearchResults "A X"), cache := [],
          events := [Event.searchCall "A X"], reinvoke := false } := by decide

/-- Claim C1 as amended: only insert failures (and duplicate hits) are
downgraded to report-and-continue — a track whose resolution succeeds with
a non-empty sequence always completes without aborting — but a per-track
throw (such as `NoSearchResults`) is not caught at the orchestrator
boundary: it rejects the track loop at the failing record, with exactly the
failing record's events, so later records are not attempted. -/
theorem c1_amended_resolution_error_aborts (env : Env) (cache : Cache) (t : TrackData)
    (pid : Option String) (rest : List (Option TrackData)) :
    (∀ e c evs, addTrack env cache t pid = (Except.error e, c, evs) →
        addTrackLoop env cache (some t :: rest) pid = (Except.error e, c, evs))
    ∧ ∀ rs c evs, getYoutubeTrackData env cache t (trackQuery t) = (Except.ok rs, c, evs) →
        rs ≠ [] → (addTrack env cache t pid).1 = Except.ok () := by
  constructor
  · intro e c evs h
    simp [addTrackLoop, h]
  · intro rs c evs h hne
    unfold addTrack
    rw [h]
    rcases rs with _ | ⟨r, rest2⟩
    · exact absurd rfl hne
    · dsimp only
      by_cases hm : videoIsAlreadyInPlaylist env pid r.id.videoId = true
      · rw [if_pos hm]
      · rw [if_neg hm, ite_self]

/-- Witness for C1 (amended): in `envC1` the failing first record makes the
whole loop reject with its `NoSearchResults`, leaving record 2 unattempted. -/
theorem c1_witness :
    addTrackLoop envC1 [] [some ⟨"A", "X"⟩, some ⟨"B", "Y"⟩] (some "id1")
      = (Except.error (JsError.noSearchResults "A X"), [], [Event.searchCall "A X"]) :=
  (c1_amended_resolution_error_aborts envC1 [] ⟨"A", "X"⟩ (some "id1")
      [some ⟨"B", "Y"⟩]).1
    (JsError.noSearchResults "A X") [] [Event.searchCall "A X"] (by decide)

/-- Claim C2: in `addTrack`, whenever an insert request is issued for a
(videoId, playlistId) pair, the Duplicate Guard answered `false` for that
pair and the event list ends with the membership check immediately followed
by the insert — so the check happens before the insert, and a pair the
guard reports as already present is never inserted. -/
theorem c2_duplicate_guard (env : Env) (cache : Cache) (d : TrackData)
    (pid : Option String) (v : String) :
    (videoIsAlreadyInPlaylist env pid v = true →
        Event.insertCall pid v ∉ (addTrack env cache d pid).2.2)
    ∧ (Event.insertCall pid v ∈ (addTrack env cache d pid).2.2 →
        videoIsAlreadyInPlaylist env pid v = false
        ∧ ∃ evs0, (addTrack env cache d pid).2.2
            = evs0 ++ [Event.memberCheck pid v, Event.insertCall pid v]) := by
  have key : Event.insertCall pid v ∈ (addTrack env cache d pid).2.2 →
      videoIsAlreadyInPlaylist env pid v = false
      ∧ ∃ evs0, (addTrack env cache d pid).2.2
          = evs0 ++ [Event.memberCheck pid v, Event.insertCall pid v] := by
    intro he
    rcases h : getYoutubeTrackData env cache d (trackQuery d) with ⟨res, c, evs⟩
    have hevs : ∀ x ∈ evs, x = Event.searchCall (trackQuery d) := fun x hx =>
      getYoutubeTrackData_events env cache d (trackQuery d) x (by rw [h]; exact hx)
    unfold addTrack at he
    rw [h] at he
    rcases res with e' | items
    · cases hevs _ he
    · rcases items with _ | ⟨r, rest⟩
      · cases hevs _ he
      · dsimp only at he
        by_cases hm : videoIsAlreadyInPlaylist env pid r.id.videoId = true
        · rw [if_pos hm] at he
          rcases List.mem_append.mp he with h1 | h1
          · cases hevs _ h1
          · simp only [List.mem_singleton] at h1
            cases h1
        · rw [if_neg hm, ite_self] at he
          have hv : v = r.id.videoId := by
            rcases List.mem_append.mp he with h1 | h1
            · cases hevs _ h1
            · simp only [List.mem_cons, List.not_mem_nil, or_false] at h1
              rcases h1 with h1 | h1
              · cases h1
              · simp only [Event.insertCall.injEq, eq_self_iff_true, true_and] at h1
                exact h1
          subst hv
          refine ⟨Bool.not_eq_true _ |>.mp hm, ⟨evs, ?_⟩⟩
          unfold addTrack
          rw [h]
          dsimp only
          rw [if_neg hm, ite_self]
  refine ⟨?_, key⟩
  intro hm hin
  have hfalse := (key hin).1
  rw [hm] at hfalse
  cases hfalse

/-- Witness for C2: in `envC2` the resolved video "v1" is already a member,
so `addTrack` issues no insert request for it. -/
theorem c2_witness :
    Event.insertCall (some "pl") "v1" ∉ (addTrack envC2 [] ⟨"A", "X"⟩ (some "pl")).2.2 :=
  (c2_duplicate_guard envC2 [] ⟨"A", "X"⟩ (some "pl") "v1").1 (by decide)

/-- Claim C3 (the code's actual behaviour at the failing point): a pass of
`addPlaylist` that completes its track loop — here `envC3`, whose single
record resolves and inserts cleanly — attempts each record once and then
reaches the unconditional self-invocation `addPlaylist(auth)` at line 308,
re-running the import instead of terminating. -/
theorem c3_reinvokes_after_pass :
    addPlaylist envC3 []
      = { outcome := Except.ok (),
          cache := [("youtube-data-for-A-X", ⟨JsonVal.arr [⟨⟨"v1"⟩, "T"⟩], some 86400⟩)],
          events := [Event.searchCall "A X", Event.memberCheck (some "id1") "v1",
            Event.insertCall (some "id1") "v1"],
          reinvoke := true } := by decide

/-- The locator reports `exists` precisely when some page item carries
exactly the requested title. -/
theorem playlistAlreadyExists_exists_iff (items : List Playlist) (title : String) :
    (playlistAlreadyExists items title).exists' = true ↔ ∃ pl ∈ items, pl.title = title := by
  induction items with
  | nil => simp [playlistAlreadyExists]
  | cons pl rest ih =>
    by_cases h : pl.title = title
    · simp [playlistAlreadyExists, h]
    · simp [playlistAlreadyExists, h, ih]

/-- When no page item matches, the locator returns the not-found object. -/
theorem playlistAlreadyExists_not_found (items : List Playlist) (title : String)
    (h : (playlistAlreadyExists items title).exists' = false) :
    playlistAlreadyExists items title = ⟨false, none⟩ := by
  induction items with
  | nil => rfl
  | cons pl rest ih =>
    by_cases hq : pl.title = title
    · simp [playlistAlreadyExists, hq] at h
    · simp only [playlistAlreadyExists, if_neg hq] at h ⊢
      exact ih h

/-- The locator returns the identifier of the FIRST matching page item. -/
theorem playlistAlreadyExists_first_match (pre : List Playlist) (pl : Playlist)
    (post : List Playlist) (title : String) (hpl : pl.title = title)
    (hpre : ∀ q ∈ pre, q.title ≠ title) :
    playlistAlreadyExists (pre ++ pl :: post) title = ⟨true, some pl.id⟩ := by
  induction pre with
  | nil => simp [playlistAlreadyExists, hpl]
  | cons q pre' ih =>
    have hq : q.title ≠ title := hpre q (List.mem_cons_self q pre')
    simp only [List.cons_append, playlistAlreadyExists, if_neg hq]
    exact ih fun x hx => hpre x (List.mem_cons_of_mem q hx)

/-- Claim C8: the locate request asks for a single page of at most 20 of
the account's own playlists; the scan reports a match precisely when an
item of that page carries exactly the requested title (case-sensitively:
"ABC" does not match "abc"), returning the first match's identifier, and
returns the not-found object `{exists: false, id: null}` otherwise. -/
theorem c8_playlist_locator :
    playlistsListRequest.maxResults = 20 ∧ playlistsListRequest.mine = true
    ∧ playlistAlreadyExists [⟨"idA", "ABC"⟩] "abc" = ⟨false, none⟩
    ∧ ∀ (items : List Playlist) (title : String),
        ((playlistAlreadyExists items title).exists' = true ↔ ∃ pl ∈ items, pl.title = title)
        ∧ ((playlistAlreadyExists items title).exists' = false →
            playlistAlreadyExists items title = ⟨false, none⟩)
        ∧ ∀ pre pl post, items = pre ++ pl :: post → pl.title = title →
            (∀ q ∈ pre, q.title ≠ title) →
            playlistAlreadyExists items title = ⟨true, some pl.id⟩ := by
  refine ⟨rfl, rfl, by decide, fun items title => ⟨?_, ?_, ?_⟩⟩
  · exact playlistAlreadyExists_exists_iff items title
  · exact playlistAlreadyExists_not_found items title
  · intro pre pl post hitems hpl hpre
    subst hitems
    exact playlistAlreadyExists_first_match pre pl post title hpl hpre

/-- Witness for C8: among three page items with titles "Other", "T", "T",
the locator returns the id of the first "T". -/
theorem c8_witness :
    playlistAlreadyExists [⟨"i1", "Other"⟩, ⟨"i2", "T"⟩, ⟨"i3", "T"⟩] "T"
      = ⟨true, some "i2"⟩ :=
  (c8_playlist_locator.2.2.2 [⟨"i1", "Other"⟩, ⟨"i2", "T"⟩, ⟨"i3", "T"⟩] "T").2.2
    [⟨"i1", "Other"⟩] ⟨"i2", "T"⟩ [⟨"i3", "T"⟩] rfl rfl (by decide)

/-- Claim C9: when the locator finds an existing playlist (returning its
id), the pass issues no create request, and every membership check and
insert request of the run targets exactly that id. -/
theorem c9_playlist_reuse (env : Env) (cache : Cache) (pid : String)
    (hloc : playlistAlreadyExists env.playlists env.filename = ⟨true, some pid⟩) :
    (∀ t, Event.createCall t ∉ (addPlaylist env cache).events)
    ∧ ∀ e ∈ (addPlaylist env cache).events,
        (∃ q, e = Event.searchCall q) ∨ (∃ v, e = Event.memberCheck (some pid) v)
        ∨ (∃ v, e = Event.insertCall (some pid) v) := by
  have hev : (addPlaylist env cache).events
      = (addTrackLoop env cache env.tracks (some pid)).2.2 := by
    simp [addPlaylist, hloc]
  constructor
  · intro t hmem
    rw [hev] at hmem
    rcases addTrackLoop_events env env.tracks cache (some pid) (Event.createCall t) hmem
      with ⟨q, hq⟩ | ⟨v, hv⟩ | ⟨v, hv⟩
    · cases hq
    · cases hv
    · cases hv
  · intro e hmem
    rw [hev] at hmem
    exact addTrackLoop_events env env.tracks cache (some pid) e hmem

/-- Witness for C9: with "My List" already existing as "id1", the pass
issues no create request. -/
theorem c9_witness :
    Event.createCall "My List" ∉ (addPlaylist envC9 []).events :=
  (c9_playlist_reuse envC9 [] "id1" (by decide)).1 "My List"

/-- Claim C10 (implicit): a live cached "[]" is accepted as a cache hit and
passes the isArray validation (the resolver returns the empty sequence
without any search request), whereupon `addTrack`'s unguarded
`youtubeTrackData[0].id` access raises a TypeError before any membership
check or insert; in general `addTrack` raises that TypeError exactly when
the validated sequence is empty — it is safe only under the unstated
precondition that the resolved sequence is non-empty. -/
theorem c10_unguarded_head_access :
    (getYoutubeTrackData envC10 cacheC10 ⟨"A", "X"⟩ "A X"
        = (Except.ok [], [("youtube-data-for-A-X", ⟨JsonVal.arr [], some 86400⟩)], []))
    ∧ (addTrack envC10 cacheC10 ⟨"A", "X"⟩ (some "pl")
        = (Except.error JsError.typeError,
            [("youtube-data-for-A-X", ⟨JsonVal.arr [], some 86400⟩)], []))
    ∧ ∀ (env : Env) (cache : Cache) (d : TrackData) (pid : Option String),
        (addTrack env cache d pid).1 = Except.error JsError.typeError ↔
          (getYoutubeTrackData env cache d (trackQuery d)).1 = Except.ok [] := by
  refine ⟨by decide, by decide, ?_⟩
  intro env cache d pid
  unfold addTrack
  rcases h : getYoutubeTrackData env cache d (trackQuery d) with ⟨res, c, evs⟩
  rcases res with e' | items
  · have he' := getYoutubeTrackData_error env cache d (trackQuery d) e' (by rw [h])
    subst he'
    simp
  · rcases items with _ | ⟨r, rest2⟩
    · simp
    · dsimp only
      by_cases hm : videoIsAlreadyInPlaylist env pid r.id.videoId = true
      · rw [if_pos hm]
        simp
      · rw [if_neg hm, ite_self]
        simp

/-- Witness for C10: in the concrete world with the live cached "[]",
`addTrack` indeed fails with the TypeError (via the general equivalence). -/
theorem c10_witness :
    (addTrack envC10 cacheC10 ⟨"A", "X"⟩ (some "pl")).1 = Except.error JsError.typeError :=
  (c10_unguarded_head_access.2.2 envC10 cacheC10 ⟨"A", "X"⟩ (some "pl")).mpr (by decide)

end YtmImporter
